import Mathlib

/-!
Shallow embedding of the server core of a reverse-tunnel program
(src/server.rs): the control-channel handshake, the data-channel
handshake, the per-service control-channel task, and the connection
pool that pairs visitors with data channels.

Bytes are modelled as `Nat`, digests as byte lists, connections as
numeric identifiers.  The SHA-256 function is kept abstract: every
definition that computes a digest takes the hash function `dg` as an
explicit argument, so theorems quantify over it and concrete witnesses
may instantiate it with any computable function.
-/

set_option autoImplicit false

namespace Rathole

/-- A digest: fixed-width byte string (SHA-256 output in the program),
modelled as a list of bytes.  `type ServiceDigest = protocol::Digest`
and `type Nonce = protocol::Digest` in src/server.rs. -/
abbrev Digest := List Nat

/-- A connection (TCP stream), modelled by a numeric identifier. -/
abbrev Conn := Nat

/-- `const POOL_SIZE: usize = 64;` — the number of cached data channels
(src/server.rs line 27). -/
def POOL_SIZE : Nat := 64

/-- `const CHAN_SIZE: usize = 2048;` — the capacity of various channels
(src/server.rs line 28). -/
def CHAN_SIZE : Nat := 2048

/-- `ServerServiceConfig`: the per-service record consumed by the server.
Only the fields read by src/server.rs are modelled: `name`,
`token` (the shared secret, as bytes) and `bind_addr`. -/
structure ServerServiceConfig where
  name : String
  token : List Nat
  bind_addr : String
deriving DecidableEq, Repr

/-- `ControlChannelHandle` together with the state of its connection
pool: the handle's identity and the FIFO queue of data-channel
connections that `do_data_channel_handshake` feeds via
`conn_pool.data_ch_tx` (src/server.rs lines 276-288). -/
structure ControlChannelHandle where
  id : Nat
  dataCh : List Conn
deriving DecidableEq, Repr

/-- A fresh handle as built by `ControlChannelHandle::new`: an empty
data-channel queue (src/server.rs lines 312-341). -/
def ControlChannelHandle.mk0 (id : Nat) : ControlChannelHandle :=
  { id := id, dataCh := [] }

/-- One entry of the two-keyed control-channel map: a value reachable
by service digest (k1) and by session key (k2). -/
structure MMEntry where
  k1 : Digest
  k2 : Digest
  v : ControlChannelHandle
deriving DecidableEq, Repr

/-- Modelled from the spec: `MultiMap` (its source file is not among the
provided sources; the spec describes it in §4.6 and §3).  A mapping from
two independent keys to a single value, supporting `insert(k1, k2, v)`,
lookup by either key, and `remove_by_k1` which erases both index entries
and returns the prior value.  Modelled as a list of entries; the server
is responsible for key uniqueness (it removes before inserting). -/
abbrev ControlChannelMap := List MMEntry

/-- Modelled from the spec: `MultiMap::get1` — lookup by first key
(service digest). -/
def ControlChannelMap.get1 (m : ControlChannelMap) (k : Digest) :
    Option ControlChannelHandle :=
  (m.find? (fun e => decide (e.k1 = k))).map MMEntry.v

/-- Modelled from the spec: `MultiMap::get2` — lookup by second key
(session key / nonce). -/
def ControlChannelMap.get2 (m : ControlChannelMap) (k : Digest) :
    Option ControlChannelHandle :=
  (m.find? (fun e => decide (e.k2 = k))).map MMEntry.v

/-- Modelled from the spec: `MultiMap::remove1` — remove by first key,
erasing both index entries, returning the prior value (if any) and the
remaining map. -/
def ControlChannelMap.remove1 (m : ControlChannelMap) (k : Digest) :
    Option ControlChannelHandle × ControlChannelMap :=
  match m.find? (fun e => decide (e.k1 = k)) with
  | some e => (some e.v, m.eraseP (fun e => decide (e.k1 = k)))
  | none => (none, m)

/-- Modelled from the spec: `MultiMap::insert` — register the value
under both keys. -/
def ControlChannelMap.insert (m : ControlChannelMap) (k1 k2 : Digest)
    (v : ControlChannelHandle) : ControlChannelMap :=
  m ++ [⟨k1, k2, v⟩]

/-- Update the handle reachable by second key `k` (the effect of sending
on that handle's pool intake). -/
def ControlChannelMap.modify2 (m : ControlChannelMap) (k : Digest)
    (f : ControlChannelHandle → ControlChannelHandle) : ControlChannelMap :=
  m.map (fun e => if e.k2 = k then ⟨e.k1, e.k2, f e.v⟩ else e)

/-- The `Ack` wire frame: `Ok`, `AuthFailed` or `ServiceNotExist`. -/
inductive Ack where
  | Ok
  | AuthFailed
  | ServiceNotExist
deriving DecidableEq, Repr

/-- Observable steps of `do_control_channel_handshake`, in program
order: the challenge hello write, the removal of a stale handle, each
`Ack` write, the failure of the `Ack::Ok` write, and the insertion of
the new handle. -/
inductive HsEvent where
  | sentHello (nonce : Digest)
  | removedOld (sd : Digest)
  | sentAck (a : Ack)
  | ackOkWriteFailed
  | installed (sd sessionKey : Digest) (hid : Nat)
deriving DecidableEq, Repr

/-- Outcome of `do_control_channel_handshake`: `Ok(())`, or the three
error exits (`bail!` on unknown service, `bail!` on failed auth, `?` on
a failed `Ack::Ok` write). -/
inductive HsOutcome where
  | ok
  | errNoService
  | errAuthFailed
  | errAckWrite
deriving DecidableEq, Repr

/-- Result of a control-channel handshake: its outcome, the ordered
observable events, and the control-channel map it leaves behind. -/
structure HsResult where
  outcome : HsOutcome
  events : List HsEvent
  map : ControlChannelMap
deriving DecidableEq, Repr

/-- `do_control_channel_handshake` (src/server.rs lines 188-269).
Inputs: the hash function `dg`, the service table, the current map, the
hello's service digest, the freshly generated nonce, the `Auth` payload
read from the client, whether the `Ack::Ok` write succeeds
(`conn.write_all(... Ack::Ok ...).await?` can fail), and the identity of
the handle that would be created.

Control flow mirrors the source: send the challenge hello; look up the
service (miss: send `ServiceNotExist` and bail); compute
`session_key = digest(token ++ nonce)`; compare with the payload (miss:
send `AuthFailed` and bail); remove any stale handle by service digest;
write `Ack::Ok` (failure propagates, leaving the stale handle removed);
create the handle and insert it under `(service_digest, session_key)`. -/
def do_control_channel_handshake (dg : List Nat → Digest)
    (services : Digest → Option ServerServiceConfig)
    (m : ControlChannelMap) (service_digest nonce authPayload : Digest)
    (ackOkWriteOk : Bool) (hid : Nat) : HsResult :=
  let ev0 : List HsEvent := [.sentHello nonce]
  match services service_digest with
  | none =>
      { outcome := .errNoService
        events := ev0 ++ [.sentAck .ServiceNotExist]
        map := m }
  | some cfg =>
      let session_key := dg (cfg.token ++ nonce)
      if authPayload = session_key then
        let r := m.remove1 service_digest
        let evRm := if r.1.isSome then [HsEvent.removedOld service_digest] else []
        if ackOkWriteOk then
          { outcome := .ok
            events := ev0 ++ evRm ++
              [.sentAck .Ok, .installed service_digest session_key hid]
            map := r.2.insert service_digest session_key
              (ControlChannelHandle.mk0 hid) }
        else
          { outcome := .errAckWrite
            events := ev0 ++ evRm ++ [.ackOkWriteFailed]
            map := r.2 }
      else
        { outcome := .errAuthFailed
          events := ev0 ++ [.sentAck .AuthFailed]
          map := m }

/-- Result of `do_data_channel_handshake`: either the connection was
routed to the handle found by nonce, or the nonce matched no handle and
the server logged a warning and dropped the connection. -/
inductive DcResult where
  | routed (hid : Nat)
  | unknownNonceWarnedDropped
deriving DecidableEq, Repr

/-- `do_data_channel_handshake` (src/server.rs lines 271-289): look the
nonce up in the map by second key; on a hit, send the connection into
that handle's data-channel intake; on a miss, warn and drop. -/
def do_data_channel_handshake (m : ControlChannelMap) (nonce : Digest)
    (conn : Conn) : DcResult × ControlChannelMap :=
  match m.get2 nonce with
  | some h =>
      (.routed h.id,
       m.modify2 nonce (fun c => { c with dataCh := c.dataCh ++ [conn] }))
  | none => (.unknownNonceWarnedDropped, m)

/-- Observable steps of `ControlChannel::run` after a successful bind:
each data-channel request token enqueued on `data_req_tx`, each accepted
visitor, and each visitor forwarded to the pool's intake. -/
inductive RunEvent where
  | reqToken
  | acceptedVisitor (v : Conn)
  | enqueuedVisitor (v : Conn)
deriving DecidableEq, Repr

/-- Trace of `ControlChannel::run` (src/server.rs lines 344-437): how
many times `TcpListener::bind` was attempted, the sleeps (in seconds)
between attempts, whether the bind error was propagated (terminating
the task), and the ordered events after a successful bind. -/
structure RunTrace where
  bindAttempts : Nat
  sleepsSecs : List Nat
  bindFailed : Bool
  events : List RunEvent
deriving DecidableEq, Repr

/-- The per-visitor body of the accept loop in `ControlChannel::run`
(src/server.rs lines 410-425): request one data channel, then send the
visitor to the pool. -/
def visitorEvents (v : Conn) : List RunEvent :=
  [.acceptedVisitor v, .reqToken, .enqueuedVisitor v]

/-- `ControlChannel::run` (src/server.rs lines 344-437), driven by the
outcome of the two bind attempts and the list of visitors the public
listener accepts.  Bind: on failure, sleep 1 second and retry once; a
second failure is propagated by `?`.  After binding: enqueue
`POOL_SIZE` data-channel request tokens, then serve visitors. -/
def ControlChannel.run (bind1 bind2 : Bool) (visitors : List Conn) : RunTrace :=
  if bind1 then
    { bindAttempts := 1, sleepsSecs := [], bindFailed := false
      events := List.replicate POOL_SIZE .reqToken ++
        visitors.flatMap visitorEvents }
  else if bind2 then
    { bindAttempts := 2, sleepsSecs := [1], bindFailed := false
      events := List.replicate POOL_SIZE .reqToken ++
        visitors.flatMap visitorEvents }
  else
    { bindAttempts := 2, sleepsSecs := [1], bindFailed := true
      events := [] }

/-- The data-channel request pump (src/server.rs lines 369-376): for
each received token, write one serialized `CreateDataChannel` command on
the control connection; a failed write breaks the loop.  `writeResults`
are the successive write outcomes; the result is the number of
`CreateDataChannel` commands written. -/
def dataReqPump : List Bool → Nat → Nat
  | _, 0 => 0
  | [], _ + 1 => 0
  | r :: rs, n + 1 => if r then 1 + dataReqPump rs n else 0

/-- `ConnectionPool::run` (src/server.rs lines 469-485): repeatedly
dequeue a visitor, then dequeue a data channel, and hand the pair to a
spawned forwarder; exit as soon as either queue is exhausted.  The
result is the ordered list of pairs handed to forwarders. -/
def ConnectionPool.run : List Conn → List Conn → List (Conn × Conn)
  | [], _ => []
  | _ :: _, [] => []
  | v :: vs, d :: ds => (v, d) :: ConnectionPool.run vs ds

/-- Observable steps of a forwarder task (src/server.rs lines 474-479). -/
inductive FwEvent where
  | wroteStartForward
  | copiedBidirectional
deriving DecidableEq, Repr

/-- The forwarder body spawned per pair (src/server.rs lines 474-479):
write a serialized `StartForward` command onto the data channel; only if
that write returns `Ok` run `copy_bidirectional`. -/
def forwarder (startForwardWriteOk : Bool) : List FwEvent :=
  if startForwardWriteOk then [.wroteStartForward, .copiedBidirectional]
  else [.wroteStartForward]

/-- One control-channel handshake request, for iterating handshakes. -/
structure HsInput where
  sd : Digest
  nonce : Digest
  auth : Digest
  ackOk : Bool
  hid : Nat
deriving DecidableEq, Repr

/-- Fold a sequence of control-channel handshakes over the map. -/
def runHandshakes (dg : List Nat → Digest)
    (services : Digest → Option ServerServiceConfig) :
    List HsInput → ControlChannelMap → ControlChannelMap
  | [], m => m
  | i :: rest, m =>
      runHandshakes dg services rest
        (do_control_channel_handshake dg services m i.sd i.nonce i.auth
          i.ackOk i.hid).map

/-- The per-digest uniqueness invariant: the first keys of the map are
pairwise distinct, so each service digest reaches at most one handle. -/
def K1Unique (m : ControlChannelMap) : Prop :=
  (m.map MMEntry.k1).Nodup

/-- Number of entries reachable by a given service digest. -/
def countDigest (m : ControlChannelMap) (sd : Digest) : Nat :=
  m.countP (fun e => decide (e.k1 = sd))

/-! ### Concrete fixtures used by witnesses and counterexamples -/

/-- A concrete service record (service digest `[9]`, token byte `[1]`). -/
def cfgEx : ServerServiceConfig := { name := "", token := [1], bind_addr := "" }

/-- A concrete one-service table mapping digest `[9]` to `cfgEx`. -/
def svcEx : Digest → Option ServerServiceConfig :=
  fun sd => if sd = [9] then some cfgEx else none

/-! ### Helper lemmas -/

theorem find?_append_right {α : Type} (p : α → Bool) (l1 l2 : List α)
    (h : ∀ e ∈ l1, p e = false) :
    (l1 ++ l2).find? p = l2.find? p := by
  induction l1 with
  | nil => rfl
  | cons a as ih =>
      have ha : p a = false := h a (List.mem_cons_self a as)
      simp only [List.cons_append, List.find?_cons, ha]
      exact ih (fun e he => h e (List.mem_cons_of_mem a he))

theorem mem_remove1_snd {m : ControlChannelMap} {k : Digest} {e : MMEntry}
    (he : e ∈ (m.remove1 k).2) : e ∈ m := by
  unfold ControlChannelMap.remove1 at he
  cases hf : m.find? (fun e => decide (e.k1 = k)) with
  | none => rw [hf] at he; exact he
  | some a =>
      rw [hf] at he
      exact (List.eraseP_sublist m).subset he

theorem eraseP_k1_ne {m : ControlChannelMap} {k : Digest} (h : K1Unique m) :
    ∀ e ∈ m.eraseP (fun e => decide (e.k1 = k)), e.k1 ≠ k := by
  induction m with
  | nil => intro e he; simp at he
  | cons a as ih =>
      intro e he
      by_cases pa : a.k1 = k
      · rw [List.eraseP_cons_of_pos (by simpa using pa)] at he
        have hnd : a.k1 ∉ as.map MMEntry.k1 := by
          have := h
          unfold K1Unique at this
          simp only [List.map_cons, List.nodup_cons] at this
          exact this.1
        intro hek
        exact hnd (by rw [pa, ← hek]; exact List.mem_map_of_mem MMEntry.k1 he)
      · rw [List.eraseP_cons_of_neg (by simpa using pa)] at he
        rcases List.mem_cons.mp he with rfl | he2
        · exact pa
        · have htl : K1Unique as := by
            unfold K1Unique at h ⊢
            simp only [List.map_cons, List.nodup_cons] at h
            exact h.2
          exact ih htl e he2

theorem remove1_k1_ne {m : ControlChannelMap} {k : Digest} (h : K1Unique m) :
    ∀ e ∈ (m.remove1 k).2, e.k1 ≠ k := by
  unfold ControlChannelMap.remove1
  cases hf : m.find? (fun e => decide (e.k1 = k)) with
  | none =>
      intro e he
      have := List.find?_eq_none.mp hf e he
      simpa using this
  | some a => exact fun e he => eraseP_k1_ne h e he

theorem K1Unique_remove1 {m : ControlChannelMap} (k : Digest)
    (h : K1Unique m) : K1Unique (m.remove1 k).2 := by
  unfold ControlChannelMap.remove1
  cases hf : m.find? (fun e => decide (e.k1 = k)) with
  | none => exact h
  | some a =>
      exact List.Nodup.sublist (List.Sublist.map _ (List.eraseP_sublist m)) h

theorem K1Unique_append_singleton {m : ControlChannelMap} {en : MMEntry}
    (h : K1Unique m) (hne : ∀ e ∈ m, e.k1 ≠ en.k1) : K1Unique (m ++ [en]) := by
  unfold K1Unique
  rw [List.map_append]
  refine List.Nodup.append h (List.nodup_singleton _) ?_
  intro x hx hx2
  simp only [List.map_cons, List.map_nil, List.mem_singleton] at hx2
  rcases List.mem_map.mp hx with ⟨e, he, rfl⟩
  exact hne e he hx2

theorem countP_eq_zero_of_ne {m : ControlChannelMap} {k : Digest}
    (h : ∀ e ∈ m, e.k1 ≠ k) : countDigest m k = 0 := by
  unfold countDigest
  rw [List.countP_eq_zero]
  intro e he
  simpa using h e he

theorem hs_ok_shape (dg : List Nat → Digest)
    (services : Digest → Option ServerServiceConfig) (m : ControlChannelMap)
    (sd nonce auth : Digest) (ackOk : Bool) (hid : Nat)
    (h : (do_control_channel_handshake dg services m sd nonce auth ackOk hid).outcome
      = .ok) :
    ∃ cfg, services sd = some cfg ∧ auth = dg (cfg.token ++ nonce) ∧
      ackOk = true ∧
      (do_control_channel_handshake dg services m sd nonce auth ackOk hid).map =
        ((m.remove1 sd).2).insert sd (dg (cfg.token ++ nonce))
          (ControlChannelHandle.mk0 hid) := by
  cases hsv : services sd with
  | none =>
      unfold do_control_channel_handshake at h
      rw [hsv] at h
      simp at h
  | some cfg =>
      unfold do_control_channel_handshake at h ⊢
      rw [hsv] at h ⊢
      by_cases hp : auth = dg (cfg.token ++ nonce)
      · cases ackOk with
        | false => simp [hp] at h
        | true =>
            refine ⟨cfg, rfl, hp, rfl, ?_⟩
            simp [hp]
      · simp [hp] at h

theorem hs_not_ok_map (dg : List Nat → Digest)
    (services : Digest → Option ServerServiceConfig) (m : ControlChannelMap)
    (sd nonce auth : Digest) (ackOk : Bool) (hid : Nat) :
    (do_control_channel_handshake dg services m sd nonce auth ackOk hid).map = m ∨
    (do_control_channel_handshake dg services m sd nonce auth ackOk hid).map =
      (m.remove1 sd).2 ∨
    ∃ cfg, services sd = some cfg ∧
      (do_control_channel_handshake dg services m sd nonce auth ackOk hid).map =
        ((m.remove1 sd).2).insert sd (dg (cfg.token ++ nonce))
          (ControlChannelHandle.mk0 hid) := by
  unfold do_control_channel_handshake
  cases hsv : services sd with
  | none => left; rfl
  | some cfg =>
      by_cases hp : auth = dg (cfg.token ++ nonce)
      · cases hw : ackOk with
        | false => right; left; simp [hp, hw]
        | true => right; right; exact ⟨cfg, rfl, by simp [hp, hw]⟩
      · left; simp [hp]

theorem hs_preserves_K1Unique (dg : List Nat → Digest)
    (services : Digest → Option ServerServiceConfig) (m : ControlChannelMap)
    (sd nonce auth : Digest) (ackOk : Bool) (hid : Nat) (h : K1Unique m) :
    K1Unique (do_control_channel_handshake dg services m sd nonce auth ackOk
      hid).map := by
  rcases hs_not_ok_map dg services m sd nonce auth ackOk hid with
    hm | hm | ⟨cfg, _, hm⟩
  · rw [hm]; exact h
  · rw [hm]; exact K1Unique_remove1 sd h
  · rw [hm]
    exact K1Unique_append_singleton (K1Unique_remove1 sd h)
      (fun e he => remove1_k1_ne h e he)

theorem zip_get? {α β : Type} :
    ∀ (vs : List α) (ds : List β) (i : Nat) (v : α) (d : β),
      vs.get? i = some v → ds.get? i = some d →
      (vs.zip ds).get? i = some (v, d) := by
  intro vs
  induction vs with
  | nil => intro ds i v d hv; simp at hv
  | cons a as ih =>
      intro ds i v d hv hd
      cases ds with
      | nil => simp at hd
      | cons b bs =>
          cases i with
          | zero =>
              simp only [List.get?] at hv hd
              cases hv; cases hd
              rfl
          | succ n =>
              simp only [List.get?] at hv hd ⊢
              exact ih bs n v d hv hd

theorem pool_run_eq_zip :
    ∀ (vs ds : List Conn), ConnectionPool.run vs ds = vs.zip ds := by
  intro vs
  induction vs with
  | nil => intro ds; rfl
  | cons a as ih =>
      intro ds
      cases ds with
      | nil => rfl
      | cons b bs => simp [ConnectionPool.run, ih bs, List.zip]

instance (m : ControlChannelMap) : Decidable (K1Unique m) := by
  unfold K1Unique; infer_instance

theorem get2_append_fresh {l : ControlChannelMap} {en : MMEntry} {k : Digest}
    (h : ∀ e ∈ l, e.k2 ≠ k) (hk : en.k2 = k) :
    ControlChannelMap.get2 (l ++ [en]) k = some en.v := by
  unfold ControlChannelMap.get2
  rw [find?_append_right _ l _ (fun e he => by simpa using h e he)]
  simp [List.find?, hk]

theorem modify2_of_ne {m : ControlChannelMap} {k : Digest}
    {f : ControlChannelHandle → ControlChannelHandle}
    (h : ∀ e ∈ m, e.k2 ≠ k) : m.modify2 k f = m := by
  induction m with
  | nil => rfl
  | cons a as ih =>
      unfold ControlChannelMap.modify2 at ih ⊢
      simp only [List.map_cons]
      rw [if_neg (h a (List.mem_cons_self a as)),
        ih (fun e he => h e (List.mem_cons_of_mem a he))]

theorem modify2_append (l1 l2 : ControlChannelMap) (k : Digest)
    (f : ControlChannelHandle → ControlChannelHandle) :
    ControlChannelMap.modify2 (l1 ++ l2) k f =
      l1.modify2 k f ++ l2.modify2 k f := by
  unfold ControlChannelMap.modify2
  exact List.map_append _ l1 l2

theorem remove1_fst_isSome {m : ControlChannelMap} {k : Digest}
    {h0 : ControlChannelHandle} (h : m.get1 k = some h0) :
    (m.remove1 k).1.isSome = true := by
  unfold ControlChannelMap.get1 at h
  unfold ControlChannelMap.remove1
  cases hf : m.find? (fun e => decide (e.k1 = k)) with
  | none => rw [hf] at h; simp at h
  | some a => simp

theorem get1_remove1_self {m : ControlChannelMap} {k : Digest}
    (hu : K1Unique m) : ((m.remove1 k).2).get1 k = none := by
  unfold ControlChannelMap.get1
  rw [List.find?_eq_none.mpr (fun e he => by
    simpa using remove1_k1_ne hu e he)]
  rfl

/-- C5: the connection pool pairs visitors with data channels strictly
first-in-first-out: with N visitors queued and N data channels queued,
the pairing loop hands exactly the list of index-aligned pairs to
forwarders, the i-th dequeued visitor with the i-th dequeued data
channel, each pair exactly once at its position. -/
theorem C5_fifo_pairing (vs ds : List Conn) (h : vs.length = ds.length) :
    ConnectionPool.run vs ds = vs.zip ds ∧
    (ConnectionPool.run vs ds).length = vs.length ∧
    (∀ i v d, vs.get? i = some v → ds.get? i = some d →
      (ConnectionPool.run vs ds).get? i = some (v, d)) := by
  refine ⟨pool_run_eq_zip vs ds, ?_, ?_⟩
  · rw [pool_run_eq_zip vs ds, List.length_zip, h, Nat.min_self]
  · intro i v d hv hd
    rw [pool_run_eq_zip vs ds]
    exact zip_get? vs ds i v d hv hd

/-- Witness for C5 at a concrete input. -/
theorem C5_fifo_pairing_witness :
    ([10, 11] : List Conn).length = ([20, 21] : List Conn).length ∧
    (ConnectionPool.run [10, 11] [20, 21] = [(10, 20), (11, 21)] ∧
     (ConnectionPool.run [10, 11] [20, 21]).length = 2 ∧
     (∀ i v d, ([10, 11] : List Conn).get? i = some v →
       ([20, 21] : List Conn).get? i = some d →
       (ConnectionPool.run [10, 11] [20, 21]).get? i = some (v, d))) :=
  ⟨by decide, C5_fifo_pairing [10, 11] [20, 21] (by decide)⟩

/-- C6: if the initial public bind fails, the control channel sleeps
exactly 1 second and retries exactly once (two attempts in total); if
the retry also fails, the error is propagated and the task terminates
having produced no further events.  A successful first bind is not
retried and sleeps nowhere. -/
theorem C6_bind_retry_once (b2 : Bool) (vs : List Conn) :
    (ControlChannel.run false b2 vs).bindAttempts = 2 ∧
    (ControlChannel.run false b2 vs).sleepsSecs = [1] ∧
    ControlChannel.run false false vs =
      { bindAttempts := 2, sleepsSecs := [1], bindFailed := true
        events := [] } ∧
    (ControlChannel.run true b2 vs).bindAttempts = 1 ∧
    (ControlChannel.run true b2 vs).sleepsSecs = [] := by
  cases b2 <;> simp [ControlChannel.run]

/-- C7: a forwarder first writes the `StartForward` command onto the
data channel, and copies bytes bidirectionally exactly when that write
succeeded; on a failed write no copying happens. -/
theorem C7_forward_only_after_start_write (wok : Bool) :
    (forwarder wok).head? = some .wroteStartForward ∧
    ((FwEvent.copiedBidirectional ∈ forwarder wok) ↔ wok = true) ∧
    forwarder false = [.wroteStartForward] := by
  cases wok <;> simp [forwarder]

/-- C1 counterexample: with the identity hash, service digest `[9]`,
token `[1]` and challenge nonce `[2]`, the handshake succeeds (the
client sends the correct session key `[1, 2]`), yet the map holds no
entry under the challenge nonce `[2]` itself: a `DataChannelHello`
carrying exactly the challenge nonce is dropped as unknown, not routed.
The install key is the session key, not the challenge nonce. -/
theorem C1_challenge_nonce_not_routed :
    ([1, 2] : Digest) = id (cfgEx.token ++ [2]) ∧
    (do_control_channel_handshake id svcEx [] [9] [2] [1, 2] true 0).outcome
      = .ok ∧
    (do_control_channel_handshake id svcEx [] [9] [2] [1, 2] true 0).map.get2
      [2] = none ∧
    (do_data_channel_handshake
      (do_control_channel_handshake id svcEx [] [9] [2] [1, 2] true 0).map
      [2] 7).1 = .unknownNonceWarnedDropped := by decide

/-- C1 (amended): after a successful control-channel handshake with
challenge nonce `n` for service digest `sd`, the new handle is inserted
under the key pair `(sd, session_key)` where
`session_key = SHA256(token ++ n)`, so a subsequent `DataChannelHello`
carrying exactly the session key is routed to that handle's data-channel
queue. -/
theorem C1_routed_by_session_key (dg : List Nat → Digest)
    (services : Digest → Option ServerServiceConfig) (m : ControlChannelMap)
    (sd nonce : Digest) (cfg : ServerServiceConfig) (hid : Nat) (conn : Conn)
    (hsvc : services sd = some cfg)
    (hfresh : ∀ e ∈ m, e.k2 ≠ dg (cfg.token ++ nonce)) :
    (do_control_channel_handshake dg services m sd nonce
      (dg (cfg.token ++ nonce)) true hid).outcome = .ok ∧
    (do_control_channel_handshake dg services m sd nonce
      (dg (cfg.token ++ nonce)) true hid).map.get2 (dg (cfg.token ++ nonce))
      = some (ControlChannelHandle.mk0 hid) ∧
    (do_data_channel_handshake
      (do_control_channel_handshake dg services m sd nonce
        (dg (cfg.token ++ nonce)) true hid).map
      (dg (cfg.token ++ nonce)) conn).1 = .routed hid ∧
    (do_data_channel_handshake
      (do_control_channel_handshake dg services m sd nonce
        (dg (cfg.token ++ nonce)) true hid).map
      (dg (cfg.token ++ nonce)) conn).2.get2 (dg (cfg.token ++ nonce))
      = some { id := hid, dataCh := [conn] } := by
  have hout : (do_control_channel_handshake dg services m sd nonce
      (dg (cfg.token ++ nonce)) true hid).outcome = .ok := by
    unfold do_control_channel_handshake
    rw [hsvc]
    simp
  have hmap : (do_control_channel_handshake dg services m sd nonce
      (dg (cfg.token ++ nonce)) true hid).map =
      (m.remove1 sd).2 ++ [⟨sd, dg (cfg.token ++ nonce),
        ControlChannelHandle.mk0 hid⟩] := by
    unfold do_control_channel_handshake
    rw [hsvc]
    simp [ControlChannelMap.insert]
  have hfr2 : ∀ e ∈ (m.remove1 sd).2, e.k2 ≠ dg (cfg.token ++ nonce) :=
    fun e he => hfresh e (mem_remove1_snd he)
  have hget2 : (do_control_channel_handshake dg services m sd nonce
      (dg (cfg.token ++ nonce)) true hid).map.get2 (dg (cfg.token ++ nonce))
      = some (ControlChannelHandle.mk0 hid) := by
    rw [hmap]
    exact get2_append_fresh hfr2 rfl
  refine ⟨hout, hget2, ?_, ?_⟩
  · unfold do_data_channel_handshake
    rw [hget2]
    rfl
  · unfold do_data_channel_handshake
    rw [hget2]
    simp only
    rw [hmap, modify2_append, modify2_of_ne hfr2]
    have : ControlChannelMap.modify2
        [⟨sd, dg (cfg.token ++ nonce), ControlChannelHandle.mk0 hid⟩]
        (dg (cfg.token ++ nonce))
        (fun c => { c with dataCh := c.dataCh ++ [conn] }) =
        [⟨sd, dg (cfg.token ++ nonce), { id := hid, dataCh := [conn] }⟩] := by
      unfold ControlChannelMap.modify2
      simp [ControlChannelHandle.mk0]
    rw [this]
    exact get2_append_fresh hfr2 rfl

/-- Witness for C1 (amended) at a concrete input. -/
theorem C1_routed_by_session_key_witness :
    svcEx [9] = some cfgEx ∧
    (∀ e ∈ ([] : ControlChannelMap), e.k2 ≠ id (cfgEx.token ++ [2])) ∧
    ((do_control_channel_handshake id svcEx [] [9] [2]
      (id (cfgEx.token ++ [2])) true 0).outcome = .ok ∧
    (do_control_channel_handshake id svcEx [] [9] [2]
      (id (cfgEx.token ++ [2])) true 0).map.get2 (id (cfgEx.token ++ [2]))
      = some (ControlChannelHandle.mk0 0) ∧
    (do_data_channel_handshake
      (do_control_channel_handshake id svcEx [] [9] [2]
        (id (cfgEx.token ++ [2])) true 0).map
      (id (cfgEx.token ++ [2])) 7).1 = .routed 0 ∧
    (do_data_channel_handshake
      (do_control_channel_handshake id svcEx [] [9] [2]
        (id (cfgEx.token ++ [2])) true 0).map
      (id (cfgEx.token ++ [2])) 7).2.get2 (id (cfgEx.token ++ [2]))
      = some { id := 0, dataCh := [7] }) :=
  ⟨by decide, by simp, C1_routed_by_session_key id svcEx [] [9] [2] cfgEx 0 7
    (by decide) (by simp)⟩

/-- C2 counterexample: with the identity hash, the client sends exactly
the expected session key `SHA256(token ++ nonce) = [1, 2]`, but the
`Ack::Ok` write fails; the handshake terminates with an error and no
handle is installed, refuting "installed if and only if the payload
equals SHA256(t ++ n)". -/
theorem C2_install_not_iff_counterexample :
    ([1, 2] : Digest) = id (cfgEx.token ++ [2]) ∧
    (do_control_channel_handshake id svcEx [] [9] [2] [1, 2] false 0).outcome
      = .errAckWrite ∧
    (do_control_channel_handshake id svcEx [] [9] [2] [1, 2] false 0).map.get1
      [9] = none ∧
    (do_control_channel_handshake id svcEx [] [9] [2] [1, 2] false 0).events
      = [.sentHello [2], .ackOkWriteFailed] := by decide

/-- C2 (amended): for a known service, a handle is installed if and only
if the received Auth payload equals `SHA256(token ++ nonce)` and the
subsequent `Ack::Ok` write succeeds; for any other Auth payload the
server sends `Ack::AuthFailed`, terminates with an error, and leaves the
map untouched. -/
theorem C2_auth_decides_install (dg : List Nat → Digest)
    (services : Digest → Option ServerServiceConfig) (m : ControlChannelMap)
    (sd nonce payload : Digest) (ackOk : Bool) (hid : Nat)
    (cfg : ServerServiceConfig) (hsvc : services sd = some cfg) :
    ((∃ h, HsEvent.installed sd (dg (cfg.token ++ nonce)) h ∈
        (do_control_channel_handshake dg services m sd nonce payload ackOk
          hid).events) ↔
      (payload = dg (cfg.token ++ nonce) ∧ ackOk = true)) ∧
    (payload ≠ dg (cfg.token ++ nonce) →
      (do_control_channel_handshake dg services m sd nonce payload ackOk
        hid).events = [.sentHello nonce, .sentAck .AuthFailed] ∧
      (do_control_channel_handshake dg services m sd nonce payload ackOk
        hid).outcome = .errAuthFailed ∧
      (do_control_channel_handshake dg services m sd nonce payload ackOk
        hid).map = m) := by
  unfold do_control_channel_handshake
  rw [hsvc]
  by_cases hp : payload = dg (cfg.token ++ nonce)
  · cases ackOk with
    | true =>
        by_cases hr : (m.remove1 sd).1.isSome <;> simp [hp, hr]
    | false =>
        by_cases hr : (m.remove1 sd).1.isSome <;> simp [hp, hr]
  · simp [hp]

/-- Witness for C2 (amended) at a concrete input. -/
theorem C2_auth_decides_install_witness :
    svcEx [9] = some cfgEx ∧
    (((∃ h, HsEvent.installed [9] (id (cfgEx.token ++ [2])) h ∈
        (do_control_channel_handshake id svcEx [] [9] [2] [5] false
          0).events) ↔
      (([5] : Digest) = id (cfgEx.token ++ [2]) ∧ false = true)) ∧
    (([5] : Digest) ≠ id (cfgEx.token ++ [2]) →
      (do_control_channel_handshake id svcEx [] [9] [2] [5] false
        0).events = [.sentHello [2], .sentAck .AuthFailed] ∧
      (do_control_channel_handshake id svcEx [] [9] [2] [5] false
        0).outcome = .errAuthFailed ∧
      (do_control_channel_handshake id svcEx [] [9] [2] [5] false
        0).map = [])) :=
  ⟨by decide, C2_auth_decides_install id svcEx [] [9] [2] [5] false 0 cfgEx
    (by decide)⟩

/-- C9: a `DataChannelHello` whose nonce matches no installed handle is
warned about and dropped, and the control-channel map — hence every
installed handle's pool state — is left unchanged. -/
theorem C9_unknown_nonce_no_effect (m : ControlChannelMap) (nonce : Digest)
    (conn : Conn) (h : m.get2 nonce = none) :
    do_data_channel_handshake m nonce conn =
      (.unknownNonceWarnedDropped, m) := by
  unfold do_data_channel_handshake
  rw [h]

/-- Witness for C9 at a concrete input. -/
theorem C9_unknown_nonce_no_effect_witness :
    ControlChannelMap.get2 [⟨[9], [1, 2], ControlChannelHandle.mk0 0⟩] [3]
      = none ∧
    do_data_channel_handshake [⟨[9], [1, 2], ControlChannelHandle.mk0 0⟩]
      [3] 7 =
      (.unknownNonceWarnedDropped,
        [⟨[9], [1, 2], ControlChannelHandle.mk0 0⟩]) :=
  ⟨by decide,
    C9_unknown_nonce_no_effect [⟨[9], [1, 2], ControlChannelHandle.mk0 0⟩]
      [3] 7 (by decide)⟩

/-- C10: during install the stale handle for the service digest is
removed from the map before the `Ack::Ok` write (the event trace shows
the removal strictly before the failed write); if that write fails, the
handshake terminates with `Err` and no handle at all is left installed
for the digest — the evicted handle is not restored. -/
theorem C10_ack_write_failure_not_atomic (dg : List Nat → Digest)
    (services : Digest → Option ServerServiceConfig) (m : ControlChannelMap)
    (sd nonce : Digest) (cfg : ServerServiceConfig)
    (h0 : ControlChannelHandle) (hid : Nat)
    (hsvc : services sd = some cfg) (hold : m.get1 sd = some h0)
    (hu : K1Unique m) :
    (do_control_channel_handshake dg services m sd nonce
      (dg (cfg.token ++ nonce)) false hid).outcome = .errAckWrite ∧
    (do_control_channel_handshake dg services m sd nonce
      (dg (cfg.token ++ nonce)) false hid).events =
      [.sentHello nonce, .removedOld sd, .ackOkWriteFailed] ∧
    (do_control_channel_handshake dg services m sd nonce
      (dg (cfg.token ++ nonce)) false hid).map = (m.remove1 sd).2 ∧
    (do_control_channel_handshake dg services m sd nonce
      (dg (cfg.token ++ nonce)) false hid).map.get1 sd = none := by
  have hr : (m.remove1 sd).1.isSome = true := remove1_fst_isSome hold
  have hmap : (do_control_channel_handshake dg services m sd nonce
      (dg (cfg.token ++ nonce)) false hid).map = (m.remove1 sd).2 := by
    unfold do_control_channel_handshake
    rw [hsvc]
    simp
  refine ⟨?_, ?_, hmap, ?_⟩
  · unfold do_control_channel_handshake
    rw [hsvc]
    simp
  · unfold do_control_channel_handshake
    rw [hsvc]
    simp [hr]
  · rw [hmap]
    exact get1_remove1_self hu

/-- Witness for C10 at a concrete input. -/
theorem C10_ack_write_failure_not_atomic_witness :
    svcEx [9] = some cfgEx ∧
    ControlChannelMap.get1 [⟨[9], [5], ControlChannelHandle.mk0 3⟩] [9]
      = some (ControlChannelHandle.mk0 3) ∧
    K1Unique [⟨[9], [5], ControlChannelHandle.mk0 3⟩] ∧
    ((do_control_channel_handshake id svcEx
      [⟨[9], [5], ControlChannelHandle.mk0 3⟩] [9] [2]
      (id (cfgEx.token ++ [2])) false 1).outcome = .errAckWrite ∧
    (do_control_channel_handshake id svcEx
      [⟨[9], [5], ControlChannelHandle.mk0 3⟩] [9] [2]
      (id (cfgEx.token ++ [2])) false 1).events =
      [.sentHello [2], .removedOld [9], .ackOkWriteFailed] ∧
    (do_control_channel_handshake id svcEx
      [⟨[9], [5], ControlChannelHandle.mk0 3⟩] [9] [2]
      (id (cfgEx.token ++ [2])) false 1).map =
      (ControlChannelMap.remove1 [⟨[9], [5], ControlChannelHandle.mk0 3⟩]
        [9]).2 ∧
    (do_control_channel_handshake id svcEx
      [⟨[9], [5], ControlChannelHandle.mk0 3⟩] [9] [2]
      (id (cfgEx.token ++ [2])) false 1).map.get1 [9] = none) :=
  ⟨by decide, by decide, by decide,
    C10_ack_write_failure_not_atomic id svcEx
      [⟨[9], [5], ControlChannelHandle.mk0 3⟩] [9] [2] cfgEx
      (ControlChannelHandle.mk0 3) 1 (by decide) (by decide) (by decide)⟩

/-- C3: code behaviour at the failing input.  With the identity hash
and service digest `[9]`, the handshake succeeds and installs the
handle; then both binds of the service's public listener fail, and
`ControlChannel::run` merely propagates the error — its trace carries no
map operation at all (its type has no map input or output), so the
handle installed by the handshake is still reachable under the digest.
The spec intentionally requires the installer to remove the handle on
bind failure; no code path does. -/
theorem C3_bind_failure_keeps_handle :
    (do_control_channel_handshake id svcEx [] [9] [2] [1, 2] true 0).outcome
      = .ok ∧
    (do_control_channel_handshake id svcEx [] [9] [2] [1, 2] true 0).map.get1
      [9] = some (ControlChannelHandle.mk0 0) ∧
    ControlChannel.run false false [] =
      { bindAttempts := 2, sleepsSecs := [1], bindFailed := true
        events := [] } := by decide

theorem countDigest_append (l1 l2 : ControlChannelMap) (k : Digest) :
    countDigest (l1 ++ l2) k = countDigest l1 k + countDigest l2 k := by
  unfold countDigest
  exact List.countP_append _ l1 l2

/-- C4: at most one handle per service digest.  First, any sequence of
control-channel handshakes preserves the per-digest uniqueness invariant
of the map.  Second, a handshake that completes successfully for digest
`sd` leaves exactly one handle under `sd`.  Third, when a handle already
exists for `sd` and the handshake succeeds, the event trace shows the
old handle's removal strictly before the new handle's insertion. -/
theorem C4_unique_handle_per_digest (dg : List Nat → Digest)
    (services : Digest → Option ServerServiceConfig) :
    (∀ (inputs : List HsInput) (m : ControlChannelMap), K1Unique m →
      K1Unique (runHandshakes dg services inputs m)) ∧
    (∀ (m : ControlChannelMap) (sd nonce auth : Digest) (ackOk : Bool)
      (hid : Nat), K1Unique m →
      (do_control_channel_handshake dg services m sd nonce auth ackOk
        hid).outcome = .ok →
      countDigest
        (do_control_channel_handshake dg services m sd nonce auth ackOk
          hid).map sd = 1) ∧
    (∀ (m : ControlChannelMap) (sd nonce auth : Digest) (ackOk : Bool)
      (hid : Nat) (h0 : ControlChannelHandle), m.get1 sd = some h0 →
      (do_control_channel_handshake dg services m sd nonce auth ackOk
        hid).outcome = .ok →
      ∃ sk, (do_control_channel_handshake dg services m sd nonce auth ackOk
        hid).events =
        [.sentHello nonce, .removedOld sd, .sentAck .Ok,
          .installed sd sk hid]) := by
  refine ⟨?_, ?_, ?_⟩
  · intro inputs
    induction inputs with
    | nil => intro m hm; exact hm
    | cons i rest ih =>
        intro m hm
        exact ih _ (hs_preserves_K1Unique dg services m i.sd i.nonce i.auth
          i.ackOk i.hid hm)
  · intro m sd nonce auth ackOk hid hm hok
    rcases hs_ok_shape dg services m sd nonce auth ackOk hid hok with
      ⟨cfg, _, _, _, hmap⟩
    rw [hmap]
    unfold ControlChannelMap.insert
    rw [countDigest_append]
    rw [countP_eq_zero_of_ne (fun e he => remove1_k1_ne hm e he)]
    unfold countDigest
    simp [List.countP_cons]
  · intro m sd nonce auth ackOk hid h0 hold hok
    rcases hs_ok_shape dg services m sd nonce auth ackOk hid hok with
      ⟨cfg, hsvc, hauth, hack, _⟩
    have hr : (m.remove1 sd).1.isSome = true := remove1_fst_isSome hold
    refine ⟨dg (cfg.token ++ nonce), ?_⟩
    unfold do_control_channel_handshake
    rw [hsvc, hack, hauth]
    simp [hr]

/-- Witness for C4 at a concrete input. -/
theorem C4_unique_handle_per_digest_witness :
    K1Unique ([] : ControlChannelMap) ∧
    K1Unique (runHandshakes id svcEx
      [⟨[9], [2], [1, 2], true, 0⟩, ⟨[9], [3], [1, 3], true, 1⟩] []) ∧
    (do_control_channel_handshake id svcEx
      [⟨[9], [5], ControlChannelHandle.mk0 3⟩] [9] [2] [1, 2] true 0).outcome
      = .ok ∧
    countDigest (do_control_channel_handshake id svcEx
      [⟨[9], [5], ControlChannelHandle.mk0 3⟩] [9] [2] [1, 2] true 0).map [9]
      = 1 ∧
    (∃ sk, (do_control_channel_handshake id svcEx
      [⟨[9], [5], ControlChannelHandle.mk0 3⟩] [9] [2] [1, 2] true 0).events =
      [.sentHello [2], .removedOld [9], .sentAck .Ok,
        .installed [9] sk 0]) :=
  ⟨by decide,
    (C4_unique_handle_per_digest id svcEx).1
      [⟨[9], [2], [1, 2], true, 0⟩, ⟨[9], [3], [1, 3], true, 1⟩] []
      (by decide),
    by decide,
    (C4_unique_handle_per_digest id svcEx).2.1
      [⟨[9], [5], ControlChannelHandle.mk0 3⟩] [9] [2] [1, 2] true 0
      (by decide) (by decide),
    (C4_unique_handle_per_digest id svcEx).2.2
      [⟨[9], [5], ControlChannelHandle.mk0 3⟩] [9] [2] [1, 2] true 0
      (ControlChannelHandle.mk0 3) (by decide) (by decide)⟩

theorem take_replicate_append {α : Type} (a : α) (n : Nat) (l : List α) :
    (List.replicate n a ++ l).take n = List.replicate n a := by
  have h := List.take_left (List.replicate n a) l
  rwa [List.length_replicate] at h

theorem reqToken_before_accepted :
    ∀ (n : Nat) (l : List RunEvent) (i : Nat) (v : Conn),
      (List.replicate n RunEvent.reqToken ++ l).get? i =
        some (RunEvent.acceptedVisitor v) → n ≤ i := by
  intro n
  induction n with
  | zero => intro l i v _; exact Nat.zero_le i
  | succ k ih =>
      intro l i v h
      rw [List.replicate_succ, List.cons_append] at h
      cases i with
      | zero => simp [List.get?] at h
      | succ j =>
          simp only [List.get?] at h
          exact Nat.succ_le_succ (ih l j v h)

theorem pump_all_ok (n : Nat) :
    dataReqPump (List.replicate n true) n = n := by
  induction n with
  | zero => rfl
  | succ k ih => simp [List.replicate_succ, dataReqPump, ih, Nat.add_comm]

theorem run_events_of_bound (b1 b2 : Bool) (vs : List Conn)
    (h : (ControlChannel.run b1 b2 vs).bindFailed = false) :
    (ControlChannel.run b1 b2 vs).events =
      List.replicate POOL_SIZE .reqToken ++ vs.flatMap visitorEvents := by
  cases b1 <;> cases b2 <;> simp [ControlChannel.run] at h ⊢

/-- C8: on every path where the public listener binds, `POOL_SIZE = 64`
data-channel request tokens are enqueued immediately after binding and
before any visitor is accepted (every `acceptedVisitor` event sits at
index at least `POOL_SIZE` in the trace), and the request pump writes
one `CreateDataChannel` command per token — 64 commands when the control
connection accepts the writes. -/
theorem C8_pool_warmup (b1 b2 : Bool) (vs : List Conn)
    (h : (ControlChannel.run b1 b2 vs).bindFailed = false) :
    POOL_SIZE = 64 ∧
    (ControlChannel.run b1 b2 vs).events.take POOL_SIZE =
      List.replicate POOL_SIZE .reqToken ∧
    (∀ i v, (ControlChannel.run b1 b2 vs).events.get? i =
      some (.acceptedVisitor v) → POOL_SIZE ≤ i) ∧
    dataReqPump (List.replicate POOL_SIZE true) POOL_SIZE = POOL_SIZE := by
  have he := run_events_of_bound b1 b2 vs h
  refine ⟨rfl, ?_, ?_, pump_all_ok POOL_SIZE⟩
  · rw [he]
    exact take_replicate_append _ POOL_SIZE _
  · intro i v hv
    rw [he] at hv
    exact reqToken_before_accepted POOL_SIZE _ i v hv

/-- Witness for C8 at a concrete input. -/
theorem C8_pool_warmup_witness :
    (ControlChannel.run true true [5]).bindFailed = false ∧
    (POOL_SIZE = 64 ∧
    (ControlChannel.run true true [5]).events.take POOL_SIZE =
      List.replicate POOL_SIZE .reqToken ∧
    (∀ i v, (ControlChannel.run true true [5]).events.get? i =
      some (.acceptedVisitor v) → POOL_SIZE ≤ i) ∧
    dataReqPump (List.replicate POOL_SIZE true) POOL_SIZE = POOL_SIZE) :=
  ⟨by decide, C8_pool_warmup true true [5] (by decide)⟩

end Rathole
